import Mathlib

/-!
Verification of the availability and analytics logic of the
Accommodation Finder backend, shallowly embedded from the
Express/Mongoose source files.

Conventions of the embedding:
* Times of day are `"HH:MM"` 24-hour strings in the source.  On
  zero-padded strings of that shape the MongoDB lexicographic string
  comparison (`$lt`, `$gt`, `$gte` in `checkExpertAvailability`) and the
  `Date`-parse comparison used by the consultation schema's pre-save hook
  both coincide with numeric order on minutes since midnight, so times
  are modelled as naturals (minutes).
* Dates and object ids are opaque naturals; statuses stay strings
  exactly as the schemas store them.
* A Mongo collection is a list of documents; `findOne` is `List.find?`.
* A thrown-and-caught JavaScript error is `Except.error`.
-/

namespace AccommodationFinder

/-- An `ExpertConsultation` document (backend/models/ExpertConsultation.js),
restricted to the fields the booking path reads or writes. -/
structure Consultation where
  user : Nat
  expert : Nat
  date : Nat
  startTime : Nat
  endTime : Nat
  status : String
  amount : Nat
deriving Repr, DecidableEq

/-- An `Expert` document, restricted to the fields `bookConsultation`
reads. -/
structure Expert where
  id : Nat
  consultationFee : Nat
deriving Repr, DecidableEq

/-- The filter that `checkExpertAvailability` passes to `findOne`
(backend/controllers/expertController.js lines 120-128): same expert and
date, an `$or` of two window clauses, and status not in
`['cancelled', 'rejected']`. -/
def conflictFilter (expertId date startTime endTime : Nat) (c : Consultation) : Bool :=
  c.expert == expertId && c.date == date &&
    ((decide (c.startTime < endTime) && decide (c.endTime > startTime)) ||
     (decide (c.startTime ≥ startTime) && decide (c.startTime < endTime))) &&
    !(c.status == "cancelled" || c.status == "rejected")

/-- `checkExpertAvailability` (backend/controllers/expertController.js
lines 119-130): the slot is available iff `findOne` finds no consultation
matching `conflictFilter`. -/
def checkExpertAvailability (db : List Consultation)
    (expertId date startTime endTime : Nat) : Bool :=
  (db.find? (conflictFilter expertId date startTime endTime)).isNone

/-- The `pre('save')` hook of the consultation schema
(backend/models/ExpertConsultation.js lines 107-131): a new document is
rejected when its start is not strictly before its end, and when a
scheduled/confirmed consultation of the same expert and date already has
the exact same start time. -/
def preSaveCheck (db : List Consultation) (c : Consultation) : Except String Unit :=
  if c.endTime ≤ c.startTime then
    Except.error "End time must be after start time"
  else if (db.find? (fun x => x.expert == c.expert && x.date == c.date &&
      x.startTime == c.startTime &&
      (x.status == "scheduled" || x.status == "confirmed"))).isSome then
    Except.error "This time slot is already booked"
  else Except.ok ()

/-- Outcome of `bookConsultation`, keyed to the HTTP responses the
controller sends. -/
inductive BookOutcome where
  /-- 404 `Expert not found`. -/
  | expertNotFound
  /-- 400 `Selected time slot is not available`. -/
  | slotUnavailable
  /-- 500 `Failed to book consultation` with `error.message` — any error
  thrown inside the try block (pre-save validation, activity logging)
  caught by the controller's catch. -/
  | saveError (msg : String)
  /-- 201 with the newly created consultation. -/
  | created (c : Consultation)
deriving Repr, DecidableEq

/-- The `type` enum of the CommunicationLog schema
(backend/models/CommunicationLog.js lines 10-14). -/
def communicationLogTypeEnum : List String :=
  ["chat", "ticket", "email", "whatsapp", "call", "notification"]

/-- The `relatedTo` enum of the CommunicationLog schema
(backend/models/CommunicationLog.js lines 28-32). -/
def communicationLogRelatedToEnum : List String :=
  ["booking", "property", "payment", "account", "general", "support"]

/-- `logConsultationActivity` (backend/controllers/expertController.js
lines 153-165) calls `CommunicationLog.log` with `type: 'consultation'`
and `relatedTo: 'consultation'`.  The save inside the static `log` runs
mongoose enum validation against the schema enums above, and `log`
rethrows the resulting ValidationError
(backend/models/CommunicationLog.js lines 139-142).  The error message
stands in for mongoose's ValidationError text. -/
def logConsultationActivity : Except String Unit :=
  if "consultation" ∈ communicationLogTypeEnum ∧
      "consultation" ∈ communicationLogRelatedToEnum then Except.ok ()
  else Except.error "CommunicationLog validation failed"

/-- `bookConsultation` (backend/controllers/expertController.js lines
50-82): look the expert up, run `checkExpertAvailability`, and on success
save a new consultation with status `scheduled`; the save runs the
schema's pre-save hook.  After a successful save the controller awaits
`logConsultationActivity`; an error thrown there (or anywhere in the try
block) is caught and answered 500 while the already-saved consultation
stays in the collection.  Returns the response together with the
resulting collection. -/
def bookConsultation (experts : List Expert) (db : List Consultation)
    (userId expertId date startTime endTime : Nat) :
    BookOutcome × List Consultation :=
  match experts.find? (fun e => e.id == expertId) with
  | none => (BookOutcome.expertNotFound, db)
  | some e =>
    if !checkExpertAvailability db expertId date startTime endTime then
      (BookOutcome.slotUnavailable, db)
    else
      let c : Consultation :=
        { user := userId, expert := expertId, date := date,
          startTime := startTime, endTime := endTime,
          status := "scheduled", amount := e.consultationFee }
      match preSaveCheck db c with
      | Except.error m => (BookOutcome.saveError m, db)
      | Except.ok _ =>
        match logConsultationActivity with
        | Except.error m => (BookOutcome.saveError m, db ++ [c])
        | Except.ok _ => (BookOutcome.created c, db ++ [c])

/-- A consultation that is a member of the collection and satisfies the
conflict filter makes `find?` return something. -/
theorem find?_isSome_of_mem {α : Type} (p : α → Bool) {l : List α} {x : α}
    (hx : x ∈ l) (hp : p x = true) : (l.find? p).isSome = true := by
  induction l with
  | nil => cases hx
  | cons a t ih =>
    rcases List.mem_cons.mp hx with h | h
    · subst h
      simp [List.find?, hp]
    · cases hpa : p a with
      | true => simp [List.find?, hpa]
      | false => simpa [List.find?, hpa] using ih h

/-- Shared rejection lemma: if the expert exists and some member of the
collection satisfies `conflictFilter`, `bookConsultation` answers with the
slot-unavailable error and leaves the collection unchanged. -/
theorem slotUnavailable_of_conflict
    (experts : List Expert) (db : List Consultation)
    (userId expertId date s e : Nat)
    (hexp : (experts.find? (fun x => x.id == expertId)).isSome = true)
    (c : Consultation) (hc : c ∈ db)
    (hfilter : conflictFilter expertId date s e c = true) :
    (bookConsultation experts db userId expertId date s e).1 =
      BookOutcome.slotUnavailable ∧
    (bookConsultation experts db userId expertId date s e).2 = db := by
  have hsome := find?_isSome_of_mem _ hc hfilter
  have hav : checkExpertAvailability db expertId date s e = false := by
    unfold checkExpertAvailability
    cases hfind : db.find? (conflictFilter expertId date s e) with
    | none => rw [hfind] at hsome; simp at hsome
    | some x => rfl
  obtain ⟨ex, hex⟩ := Option.isSome_iff_exists.mp hexp
  simp [bookConsultation, hex, hav]

/-- C1: for every consultation booking request, if some existing
consultation for the same expert and date has status `scheduled` or
`confirmed` and its time window overlaps the requested window under
half-open semantics (`existing.start < requested.end` and
`existing.end > requested.start`), then `bookConsultation` rejects the
request with the slot-unavailable error and creates no consultation. -/
theorem bookConsultation_rejects_overlapping_nonterminal
    (experts : List Expert) (db : List Consultation)
    (userId expertId date s e : Nat)
    (hexp : (experts.find? (fun x => x.id == expertId)).isSome = true)
    (c : Consultation) (hc : c ∈ db)
    (hce : c.expert = expertId) (hcd : c.date = date)
    (hcs : c.status = "scheduled" ∨ c.status = "confirmed")
    (hov1 : c.startTime < e) (hov2 : s < c.endTime) :
    (bookConsultation experts db userId expertId date s e).1 =
      BookOutcome.slotUnavailable ∧
    (bookConsultation experts db userId expertId date s e).2 = db := by
  have hnc : c.status ≠ "cancelled" := by rcases hcs with h | h <;> simp [h]
  have hnr : c.status ≠ "rejected" := by rcases hcs with h | h <;> simp [h]
  exact slotUnavailable_of_conflict experts db userId expertId date s e hexp c hc
    (by simp [conflictFilter, hce, hcd, hov1, hov2, hnc, hnr])

/-- Witness for C1: a confirmed 14:00-15:00 consultation for expert 1 on
a given date makes a 14:30-15:30 request fail with the slot-unavailable
error, leaving the collection unchanged. -/
theorem bookConsultation_rejects_overlapping_nonterminal_witness :
    (bookConsultation [⟨1, 500⟩] [⟨2, 1, 0, 840, 900, "confirmed", 500⟩]
      3 1 0 870 930).1 = BookOutcome.slotUnavailable ∧
    (bookConsultation [⟨1, 500⟩] [⟨2, 1, 0, 840, 900, "confirmed", 500⟩]
      3 1 0 870 930).2 = [⟨2, 1, 0, 840, 900, "confirmed", 500⟩] :=
  bookConsultation_rejects_overlapping_nonterminal _ _ 3 1 0 870 930
    (by decide) ⟨2, 1, 0, 840, 900, "confirmed", 500⟩ (by decide)
    rfl rfl (Or.inr rfl) (by decide) (by decide)

/-- C3 counterexample: an overlapping consultation whose status is
`completed` DOES occupy the slot.  The availability query excludes only
`cancelled` and `rejected`, so a completed 14:00-15:00 consultation makes
a 14:30-15:30 request for the same expert and date fail with the
slot-unavailable error, refuting the claim that completed consultations
do not block. -/
theorem completed_consultation_blocks_booking :
    (bookConsultation [⟨1, 500⟩] [⟨2, 1, 0, 840, 900, "completed", 500⟩]
      3 1 0 870 930).1 = BookOutcome.slotUnavailable := by decide

/-- C3 amended: an existing overlapping consultation blocks a new booking
whenever its status is anything other than `cancelled` or `rejected`; in
particular `completed` and `no-show` consultations still occupy the slot
and cause rejection. -/
theorem bookConsultation_rejects_overlap_unless_cancelled
    (experts : List Expert) (db : List Consultation)
    (userId expertId date s e : Nat)
    (hexp : (experts.find? (fun x => x.id == expertId)).isSome = true)
    (c : Consultation) (hc : c ∈ db)
    (hce : c.expert = expertId) (hcd : c.date = date)
    (hnc : c.status ≠ "cancelled") (hnr : c.status ≠ "rejected")
    (hov1 : c.startTime < e) (hov2 : s < c.endTime) :
    (bookConsultation experts db userId expertId date s e).1 =
      BookOutcome.slotUnavailable ∧
    (bookConsultation experts db userId expertId date s e).2 = db :=
  slotUnavailable_of_conflict experts db userId expertId date s e hexp c hc
    (by simp [conflictFilter, hce, hcd, hov1, hov2, hnc, hnr])

/-- Witness for the amended C3: an overlapping `no-show` consultation
also blocks. -/
theorem bookConsultation_rejects_overlap_unless_cancelled_witness :
    (bookConsultation [⟨1, 500⟩] [⟨2, 1, 0, 840, 900, "no-show", 500⟩]
      3 1 0 870 930).1 = BookOutcome.slotUnavailable ∧
    (bookConsultation [⟨1, 500⟩] [⟨2, 1, 0, 840, 900, "no-show", 500⟩]
      3 1 0 870 930).2 = [⟨2, 1, 0, 840, 900, "no-show", 500⟩] :=
  bookConsultation_rejects_overlap_unless_cancelled _ _ 3 1 0 870 930
    (by decide) ⟨2, 1, 0, 840, 900, "no-show", 500⟩ (by decide)
    rfl rfl (by decide) (by decide) (by decide) (by decide)

/-- C4 counterexample: booking the second of two adjacent windows does
NOT succeed.  With a confirmed 14:00-15:00 consultation for expert 1, a
15:00-16:00 request passes the conflict check and the consultation is
saved, but the post-save `logConsultationActivity` step throws
(`consultation` is in neither CommunicationLog enum), so the program
answers 500 `Failed to book consultation` instead of 201 — while the new
consultation persists in the collection. -/
theorem adjacent_booking_answers_500 :
    bookConsultation [⟨1, 500⟩] [⟨2, 1, 0, 840, 900, "confirmed", 500⟩]
      3 1 0 900 960 =
      (BookOutcome.saveError "CommunicationLog validation failed",
       [⟨2, 1, 0, 840, 900, "confirmed", 500⟩,
        ⟨3, 1, 0, 900, 960, "scheduled", 500⟩]) := by decide

/-- C4 amended: for an adjacent pair of windows for the same expert and
date — the existing consultation ends exactly when the request starts —
adjacency is never reported as a conflict: the request passes the
conflict check and the pre-save validation and the new consultation is
created and persists, but the response is the 500
`Failed to book consultation` rather than a success, because the
post-save activity logging always fails the CommunicationLog enum
validation (`type` and `relatedTo` `consultation` are not valid enum
values) — as it does on every consultation booking that reaches the
save.  The hypothesis that the existing window has positive length is an
invariant of the collection: the schema's pre-save hook refuses to store
any document with `start >= end`. -/
theorem bookConsultation_adjacent_never_conflicts
    (experts : List Expert) (ex : Expert) (userId expertId date s e : Nat)
    (c : Consultation)
    (hex : experts.find? (fun x => x.id == expertId) = some ex)
    (hwf : c.startTime < c.endTime) (hadj : c.endTime = s) (hreq : s < e) :
    bookConsultation experts [c] userId expertId date s e =
      (BookOutcome.saveError "CommunicationLog validation failed",
       [c, ⟨userId, expertId, date, s, e, "scheduled", ex.consultationFee⟩]) := by
  have hcs : c.startTime < s := by omega
  have hnone : List.find? (conflictFilter expertId date s e) [c] = none := by
    apply List.find?_eq_none.mpr
    intro x hx
    rcases List.mem_singleton.mp hx with rfl
    simp only [conflictFilter, Bool.and_eq_true, Bool.or_eq_true,
      decide_eq_true_eq, Bool.not_eq_true', beq_iff_eq, ge_iff_le, gt_iff_lt]
    rintro ⟨⟨⟨-, -⟩, hov⟩, -⟩
    rcases hov with ⟨-, h⟩ | ⟨h, -⟩ <;> omega
  have hav : checkExpertAvailability [c] expertId date s e = true := by
    unfold checkExpertAvailability
    rw [hnone]
    rfl
  have hnone2 : List.find? (fun x => x.expert == expertId && x.date == date &&
      x.startTime == s &&
      (x.status == "scheduled" || x.status == "confirmed")) [c] = none := by
    apply List.find?_eq_none.mpr
    intro x hx
    rcases List.mem_singleton.mp hx with rfl
    simp only [Bool.and_eq_true, Bool.or_eq_true, beq_iff_eq, Bool.not_eq_true]
    rintro ⟨⟨⟨-, -⟩, h⟩, -⟩
    omega
  have hpre : preSaveCheck [c]
      ⟨userId, expertId, date, s, e, "scheduled", ex.consultationFee⟩ =
      Except.ok () := by
    unfold preSaveCheck
    rw [if_neg (by simp; omega)]
    rw [hnone2]
    rfl
  have hlog : logConsultationActivity =
      Except.error "CommunicationLog validation failed" := by
    simp [logConsultationActivity, communicationLogTypeEnum,
      communicationLogRelatedToEnum]
  simp [bookConsultation, hex, hav, hpre, hlog]

/-- Witness for the amended C4: a confirmed 09:00-10:00 consultation for
expert 4 never conflicts with a 10:00-11:30 request on the same day; the
new consultation is appended while the response is the logging 500. -/
theorem bookConsultation_adjacent_never_conflicts_witness :
    bookConsultation [⟨4, 250⟩] [⟨2, 4, 12, 540, 600, "confirmed", 250⟩]
      8 4 12 600 690 =
      (BookOutcome.saveError "CommunicationLog validation failed",
       [⟨2, 4, 12, 540, 600, "confirmed", 250⟩,
        ⟨8, 4, 12, 600, 690, "scheduled", 250⟩]) :=
  bookConsultation_adjacent_never_conflicts [⟨4, 250⟩] ⟨4, 250⟩ 8 4 12 600 690
    ⟨2, 4, 12, 540, 600, "confirmed", 250⟩ (by decide) (by decide) rfl
    (by decide)

/-- C5 counterexample: a zero-length request is NOT rejected as invalid
input before the conflict check runs.  With an existing scheduled
14:00-16:00 consultation, a 15:00-15:00 request for the same expert and
date is answered by the conflict check with the slot-unavailable error,
showing the conflict check runs first and decides the response. -/
theorem zero_length_request_hits_conflict_check :
    (bookConsultation [⟨1, 500⟩] [⟨2, 1, 0, 840, 960, "scheduled", 500⟩]
      3 1 0 900 900).1 = BookOutcome.slotUnavailable := by decide

/-- C5 amended: a zero-length request is never booked and leaves the
collection unchanged, but the rejection does not happen as input
validation before the conflict check: either the expert lookup fails, or
the conflict check rejects (when an existing window covers the instant),
or the schema's pre-save validation — which runs only after the conflict
check has passed — rejects with `End time must be after start time`,
surfaced by the controller as a 500. -/
theorem zero_length_request_never_booked
    (experts : List Expert) (db : List Consultation)
    (userId expertId date s : Nat) :
    (bookConsultation experts db userId expertId date s s).2 = db ∧
    ((bookConsultation experts db userId expertId date s s).1 =
        BookOutcome.expertNotFound ∨
     (bookConsultation experts db userId expertId date s s).1 =
        BookOutcome.slotUnavailable ∨
     (bookConsultation experts db userId expertId date s s).1 =
        BookOutcome.saveError "End time must be after start time") := by
  unfold bookConsultation
  cases hfind : experts.find? (fun x => x.id == expertId) with
  | none => exact ⟨rfl, Or.inl rfl⟩
  | some ex =>
    by_cases hav : checkExpertAvailability db expertId date s s = true
    · have hpre : preSaveCheck db
          ⟨userId, expertId, date, s, s, "scheduled", ex.consultationFee⟩ =
          Except.error "End time must be after start time" := by
        unfold preSaveCheck
        rw [if_pos (by simp)]
      simp [hav, hpre]
    · simp [Bool.not_eq_true] at hav
      simp [hav]

/-- One entry of a property's `viewedBy` array
(backend/models/Property.js): the viewer's user id when authenticated,
the time of the view, and the client IP. -/
structure ViewRecord where
  user : Option Nat
  viewedAt : Nat
  ipAddress : String
deriving Repr, DecidableEq

/-- A `Property` document, restricted to the fields the visit-booking and
view-tracking paths read or write (`analytics.views` and
`analytics.bookings` are the counter block). -/
structure PropertyDoc where
  id : Nat
  owner : Nat
  viewedBy : List ViewRecord
  views : Nat
  bookings : Nat
deriving Repr, DecidableEq

/-- A `Booking` document of type `visit`
(backend/models/Booking.js), restricted to the fields the visit route
reads or writes; `status` defaults to `pending` on creation. -/
structure Booking where
  user : Nat
  property : Nat
  owner : Nat
  bookingType : String
  status : String
  visitDate : Nat
  visitTimeSlot : String
deriving Repr, DecidableEq

/-- The filter the visit route passes to `Booking.findOne`
(backend/routes/bookings.js lines 36-41): same requesting user, same
property, type `visit`, status in `['pending', 'confirmed']`.  Note it
constrains the *requesting user*, not the property's calendar, and never
mentions the date or time slot. -/
def visitPendingFilter (userId propertyId : Nat) (b : Booking) : Bool :=
  b.user == userId && b.property == propertyId && b.bookingType == "visit" &&
    (b.status == "pending" || b.status == "confirmed")

/-- Outcome of the visit route, keyed to its HTTP responses. -/
inductive VisitOutcome where
  /-- 400 from express-validator (empty time slot, etc.). -/
  | validationError
  /-- 404 `Property not found`. -/
  | propertyNotFound
  /-- 400 `You already have a pending visit request for this property`. -/
  | alreadyPending
  /-- 201 `Visit scheduled successfully` with the created booking. -/
  | scheduled (b : Booking)
deriving Repr, DecidableEq

/-- POST /api/bookings/visit (backend/routes/bookings.js lines 13-91):
validate, look the property up, reject when the requesting user already
has a pending/confirmed visit for it, otherwise create a visit booking
with default status `pending`.  The notification block at lines 62-81
references `Notification`, whose import line 7 is commented out; the
resulting ReferenceError is caught by the inner try/catch and only
logged, so the request still succeeds with 201. -/
def bookVisit (properties : List PropertyDoc) (db : List Booking)
    (userId propertyId visitDate : Nat) (visitTimeSlot : String) :
    VisitOutcome × List Booking :=
  if visitTimeSlot = "" then (VisitOutcome.validationError, db)
  else match properties.find? (fun p => p.id == propertyId) with
  | none => (VisitOutcome.propertyNotFound, db)
  | some p =>
    if (db.find? (visitPendingFilter userId propertyId)).isSome then
      (VisitOutcome.alreadyPending, db)
    else
      let b : Booking :=
        { user := userId, property := propertyId, owner := p.owner,
          bookingType := "visit", status := "pending",
          visitDate := visitDate, visitTimeSlot := visitTimeSlot }
      (VisitOutcome.scheduled b, db ++ [b])

/-- C2 counterexample: an overlapping pending visit by a DIFFERENT tenant
does not block.  User 2 holds a pending visit for property 1 on date 5,
slot `10:00-11:00`; user 1 requests the exact same property, date and
slot, and the request succeeds with a new booking instead of being
rejected. -/
theorem other_tenant_visit_does_not_block :
    bookVisit [⟨1, 50, [], 0, 0⟩]
      [⟨2, 1, 50, "visit", "pending", 5, "10:00-11:00"⟩]
      1 1 5 "10:00-11:00" =
      (VisitOutcome.scheduled ⟨1, 1, 50, "visit", "pending", 5, "10:00-11:00"⟩,
       [⟨2, 1, 50, "visit", "pending", 5, "10:00-11:00"⟩,
        ⟨1, 1, 50, "visit", "pending", 5, "10:00-11:00"⟩]) := by decide

/-- C2 amended: a property-visit request (with a nonempty slot, for an
existing property) is rejected precisely when the REQUESTING tenant
already has a visit booking for that property with status `pending` or
`confirmed` — regardless of date or time slot; existing visits by other
tenants never block. -/
theorem bookVisit_rejects_iff_requester_has_visit
    (properties : List PropertyDoc) (db : List Booking)
    (userId propertyId visitDate : Nat) (slot : String)
    (hslot : slot ≠ "") (p : PropertyDoc)
    (hp : properties.find? (fun x => x.id == propertyId) = some p) :
    (bookVisit properties db userId propertyId visitDate slot).1 =
        VisitOutcome.alreadyPending ↔
      ∃ b ∈ db, b.user = userId ∧ b.property = propertyId ∧
        b.bookingType = "visit" ∧
        (b.status = "pending" ∨ b.status = "confirmed") := by
  have key : (bookVisit properties db userId propertyId visitDate slot).1 =
      VisitOutcome.alreadyPending ↔
      (db.find? (visitPendingFilter userId propertyId)).isSome = true := by
    cases hfind : db.find? (visitPendingFilter userId propertyId) with
    | none => simp [bookVisit, hslot, hp, hfind]
    | some b => simp [bookVisit, hslot, hp, hfind]
  rw [key, List.find?_isSome]
  constructor
  · rintro ⟨b, hb, hpred⟩
    have hpred2 := by simpa [visitPendingFilter] using hpred
    exact ⟨b, hb, hpred2.1.1.1, hpred2.1.1.2, hpred2.1.2, hpred2.2⟩
  · rintro ⟨b, hb, h1, h2, h3, h4⟩
    refine ⟨b, hb, ?_⟩
    rcases h4 with h4 | h4 <;> simp [visitPendingFilter, h1, h2, h3, h4]

/-- Witness for the amended C2: user 1 already holds a pending visit for
property 1, so a second request by user 1 is rejected even for a
different date and slot. -/
theorem bookVisit_rejects_iff_requester_has_visit_witness :
    (bookVisit [⟨1, 50, [], 0, 0⟩]
      [⟨1, 1, 50, "visit", "pending", 5, "10:00-11:00"⟩]
      1 1 9 "16:00-17:00").1 = VisitOutcome.alreadyPending ↔
      ∃ b ∈ [(⟨1, 1, 50, "visit", "pending", 5, "10:00-11:00"⟩ : Booking)],
        b.user = 1 ∧ b.property = 1 ∧ b.bookingType = "visit" ∧
        (b.status = "pending" ∨ b.status = "confirmed") :=
  bookVisit_rejects_iff_requester_has_visit _ _ 1 1 9 "16:00-17:00"
    (by decide) ⟨1, 50, [], 0, 0⟩ (by decide)

/-- `x.toFixed(2)` followed by `parseFloat`, on the exact rational
value: rounding to the nearest hundredth.  The ECMAScript `toFixed`
algorithm picks the integer `n` with `n / 10^f` closest to the value and
the larger `n` on ties, which is exactly `round`. -/
def toFixed2 (q : ℚ) : ℚ := ((round (q * 100) : ℤ) : ℚ) / 100

/-- `x.toFixed(1)` followed by `parseFloat`; also the value of
`Math.round(x * 10) / 10`, since `Math.round` rounds halves up as well. -/
def toFixed1 (q : ℚ) : ℚ := ((round (q * 10) : ℤ) : ℚ) / 10

/-- The conversion-rate computation, written identically in
backend/routes/owner.js lines 33-35 and 43 and backend/routes/reviews.js
lines 487-494 and 538: `toFixed(2)` of `bookings / views * 100` when
there are views, the number 0 otherwise, then `parseFloat`. -/
def conversionRate (views bookings : Nat) : ℚ :=
  if views > 0 then toFixed2 ((bookings : ℚ) / (views : ℚ) * 100) else 0

/-- Modelled from the spec's words, for comparison with the code:
`conversionRate = bookings/views * 100` rounded to 2 decimals, and 0
when there are no views. -/
def conversionRateSpec (views bookings : Nat) : ℚ :=
  if views = 0 then 0
  else ((round ((bookings : ℚ) / (views : ℚ) * 100 * 100) : ℤ) : ℚ) / 100

/-- C6: the code's conversion rate equals the spec's formula — bookings
over views times 100 rounded to 2 decimals — is exactly 0 when there are
no views, and evaluates to 20 for 10 views and 2 bookings. -/
theorem conversionRate_correct :
    (∀ views bookings, conversionRate views bookings =
      conversionRateSpec views bookings) ∧
    (∀ bookings, conversionRate 0 bookings = 0) ∧
    conversionRate 10 2 = 20 := by
  refine ⟨fun v b => ?_, fun b => by simp [conversionRate],
    by norm_num [conversionRate, toFixed2, round_eq]⟩
  by_cases hv : v = 0
  · simp [conversionRate, conversionRateSpec, hv]
  · simp [conversionRate, conversionRateSpec, hv, Nat.pos_of_ne_zero hv,
      toFixed2]

/-- The average-rating computation of the owner analytics endpoint
(backend/routes/reviews.js lines 496-499, and per property at lines
525-527): `toFixed(1)` of the mean when there are reviews, the number 0
otherwise, then `parseFloat`.  Ratings are the `rating` fields of the
review documents. -/
def averageRatingOwner (ratings : List Nat) : ℚ :=
  if ratings.length > 0 then
    toFixed1 ((ratings.sum : ℚ) / (ratings.length : ℚ))
  else 0

/-- The average-rating computation of the property detail route
(backend/routes/notifications.js lines 220-227): the mean guarded to 0
when there are no reviews, then `Math.round(avg * 10) / 10`. -/
def averageRatingDetail (ratings : List Nat) : ℚ :=
  let avg : ℚ :=
    if ratings.length > 0 then (ratings.sum : ℚ) / (ratings.length : ℚ) else 0
  ((round (avg * 10) : ℤ) : ℚ) / 10

/-- Modelled from the spec's words, for comparison with the code:
`averageRating = sum(ratings)/count(reviews)` rounded to 1 decimal, and
exactly 0 when there are no reviews. -/
def averageRatingSpec (ratings : List Nat) : ℚ :=
  if ratings.length = 0 then 0
  else ((round ((ratings.sum : ℚ) / (ratings.length : ℚ) * 10) : ℤ) : ℚ) / 10

/-- C7: both code sites compute the spec's average rating — the sum of
ratings over the review count rounded to 1 decimal — and both are
exactly the rational 0 (a number, never NaN or undefined) on an empty
review list. -/
theorem averageRating_correct :
    (∀ ratings, averageRatingOwner ratings = averageRatingSpec ratings) ∧
    (∀ ratings, averageRatingDetail ratings = averageRatingSpec ratings) ∧
    averageRatingOwner [] = 0 ∧ averageRatingDetail [] = 0 := by
  have howner : ∀ ratings, averageRatingOwner ratings = averageRatingSpec ratings := by
    intro r
    by_cases hr : r.length = 0
    · simp [averageRatingOwner, averageRatingSpec, hr]
    · simp [averageRatingOwner, averageRatingSpec, hr, Nat.pos_of_ne_zero hr,
        toFixed1]
  have hdetail : ∀ ratings, averageRatingDetail ratings = averageRatingSpec ratings := by
    intro r
    by_cases hr : r.length = 0
    · simp [averageRatingDetail, averageRatingSpec, hr]
    · simp [averageRatingDetail, averageRatingSpec, hr, Nat.pos_of_ne_zero hr]
  exact ⟨howner, hdetail, by simp [averageRatingOwner],
    by simp [averageRatingDetail]⟩

/-- View tracking on the property detail route
(backend/routes/notifications.js lines 172-213).  An authenticated
viewer who is not the owner is counted once ever (dedup by user id); an
anonymous viewer is counted unless a `viewedBy` record with the same IP
exists within the last 24 hours (86400000 ms); the owner is never
counted.  Counting appends a `viewedBy` record and increments
`analytics.views`. -/
def trackView (p : PropertyDoc) (userId : Option Nat) (ip : String)
    (now : Nat) : PropertyDoc :=
  match userId with
  | some u =>
    if p.owner ≠ u then
      if p.viewedBy.any (fun v => v.user == some u) then p
      else { p with viewedBy := p.viewedBy ++ [⟨some u, now, ip⟩],
                    views := p.views + 1 }
    else p
  | none =>
    if p.viewedBy.any (fun v =>
        v.ipAddress == ip && decide (now - v.viewedAt < 86400000)) then p
    else { p with viewedBy := p.viewedBy ++ [⟨none, now, ip⟩],
                  views := p.views + 1 }

/-- C8: an authenticated viewer who is not the owner and has no prior
view record is counted exactly once: the first fetch appends one view
record and increments the counter by one, and any later fetch by the
same user (any IP, any time) is a no-op on the whole document. -/
theorem authenticated_view_counted_once
    (p : PropertyDoc) (u : Nat) (ip : String) (now : Nat)
    (howner : u ≠ p.owner)
    (hnew : ∀ v ∈ p.viewedBy, v.user ≠ some u) :
    (trackView p (some u) ip now).views = p.views + 1 ∧
    (trackView p (some u) ip now).viewedBy = p.viewedBy ++ [⟨some u, now, ip⟩] ∧
    ∀ ip2 now2, trackView (trackView p (some u) ip now) (some u) ip2 now2 =
      trackView p (some u) ip now := by
  have howner2 : p.owner ≠ u := Ne.symm howner
  have hany : p.viewedBy.any (fun v => v.user == some u) = false := by
    apply List.any_eq_false.mpr
    intro v hv
    simpa using hnew v hv
  have hfirst : trackView p (some u) ip now =
      { p with viewedBy := p.viewedBy ++ [⟨some u, now, ip⟩],
               views := p.views + 1 } := by
    simp [trackView, howner2, hany]
  refine ⟨by rw [hfirst], by rw [hfirst], fun ip2 now2 => ?_⟩
  rw [hfirst]
  have hany2 : (p.viewedBy ++ [(⟨some u, now, ip⟩ : ViewRecord)]).any
      (fun v => v.user == some u) = true := by
    simp
  simp [trackView, howner2, hany2]

/-- Witness for C8: a fresh non-owner viewer bumps the counter from 0 to
1, and a repeat fetch by the same user (different IP and time) changes
nothing. -/
theorem authenticated_view_counted_once_witness :
    (trackView ⟨1, 2, [], 0, 0⟩ (some 3) "ip1" 100).views = 0 + 1 ∧
    trackView (trackView ⟨1, 2, [], 0, 0⟩ (some 3) "ip1" 100) (some 3)
        "ip2" 200 =
      trackView ⟨1, 2, [], 0, 0⟩ (some 3) "ip1" 100 :=
  ⟨(authenticated_view_counted_once ⟨1, 2, [], 0, 0⟩ 3 "ip1" 100
      (by decide) (by simp)).1,
   (authenticated_view_counted_once ⟨1, 2, [], 0, 0⟩ 3 "ip1" 100
      (by decide) (by simp)).2.2 "ip2" 200⟩

/-- C9: for an anonymous viewer, a fetch while some view record with the
same IP is younger than 24 hours is a no-op on the whole document; a
fetch when every record with that IP is at least 24 hours old appends a
new view record and increments the counter again. -/
theorem anonymous_view_dedup_window
    (p : PropertyDoc) (ip : String) (now : Nat) :
    ((∃ v ∈ p.viewedBy, v.ipAddress = ip ∧ now - v.viewedAt < 86400000) →
      trackView p none ip now = p) ∧
    ((∀ v ∈ p.viewedBy, v.ipAddress = ip → 86400000 ≤ now - v.viewedAt) →
      (trackView p none ip now).views = p.views + 1 ∧
      (trackView p none ip now).viewedBy = p.viewedBy ++ [⟨none, now, ip⟩]) := by
  constructor
  · rintro ⟨v, hv, hip, ht⟩
    have hany : p.viewedBy.any (fun v =>
        v.ipAddress == ip && decide (now - v.viewedAt < 86400000)) = true := by
      apply List.any_eq_true.mpr
      exact ⟨v, hv, by simp [hip, ht]⟩
    simp [trackView, hany]
  · intro h
    have hany : p.viewedBy.any (fun v =>
        v.ipAddress == ip && decide (now - v.viewedAt < 86400000)) = false := by
      apply List.any_eq_false.mpr
      intro v hv
      simp only [Bool.and_eq_true, beq_iff_eq, decide_eq_true_eq, not_and]
      intro hip
      have := h v hv hip
      omega
    simp [trackView, hany]

/-- Witness for C9: with one anonymous record from `ip1` at time 0, a
fetch from `ip1` at the 24-hour mark counts again (1 becomes 2). -/
theorem anonymous_view_dedup_window_witness :
    (∀ v ∈ ([⟨none, 0, "ip1"⟩] : List ViewRecord), v.ipAddress = "ip1" →
      86400000 ≤ 86400000 - v.viewedAt) ∧
    (trackView ⟨1, 2, [⟨none, 0, "ip1"⟩], 1, 0⟩ none "ip1" 86400000).views =
      1 + 1 :=
  ⟨by simp,
   ((anonymous_view_dedup_window ⟨1, 2, [⟨none, 0, "ip1"⟩], 1, 0⟩ "ip1"
      86400000).2 (by simp)).1⟩

/-- The module-level bindings of backend/routes/owner.js (lines 1-9):
the file requires express, express-validator, the Property, Booking,
Enquiry and Favorite models, and the auth middleware.  `Notification` is
not among them and the module never declares it, so evaluating the
identifier `Notification` inside a handler throws a ReferenceError. -/
def ownerModuleBindings : List String :=
  ["express", "router", "body", "validationResult",
   "Property", "Booking", "Enquiry", "Favorite", "auth", "authorize"]

/-- The notification step at backend/routes/owner.js lines 115-123:
`Notification.create(...)`, which resolves only if the module binds the
identifier `Notification`. -/
def notificationStep : Except String Unit :=
  if "Notification" ∈ ownerModuleBindings then Except.ok ()
  else Except.error "ReferenceError: Notification is not defined"

/-- A `Booking` document as the owner respond route sees it after
`populate('property')`: `propertyOwner` is `booking.property.owner`. -/
structure OwnerBooking where
  id : Nat
  user : Nat
  propertyOwner : Nat
  bookingType : String
  status : String
  ownerResponse : String
  respondedAt : Option Nat
deriving Repr, DecidableEq

/-- Outcome of the owner respond route, keyed to its HTTP responses. -/
inductive RespondOutcome where
  /-- 400 from express-validator (status outside confirmed/rejected). -/
  | validationError
  /-- 404 `Booking not found`. -/
  | bookingNotFound
  /-- 403 `Access denied`. -/
  | accessDenied
  /-- 500 `Server error` from the catch block. -/
  | serverError (msg : String)
  /-- 200 with the updated booking. -/
  | responded (b : OwnerBooking)
deriving Repr, DecidableEq

/-- PUT /api/owner/booking/:id/respond (backend/routes/owner.js lines
84-130): validate the status, find the booking, check ownership, save
the new status/response/timestamp, then run the notification step inside
the same try block; an error thrown after the save is caught and
answered with 500 `Server error`, while the saved change stays in the
collection. -/
def respondToBooking (db : List OwnerBooking) (reqUserId bookingId now : Nat)
    (status message : String) : RespondOutcome × List OwnerBooking :=
  if ¬(status = "confirmed" ∨ status = "rejected") then
    (RespondOutcome.validationError, db)
  else match db.find? (fun b => b.id == bookingId) with
  | none => (RespondOutcome.bookingNotFound, db)
  | some b =>
    if b.propertyOwner ≠ reqUserId then (RespondOutcome.accessDenied, db)
    else
      let b2 : OwnerBooking :=
        { b with status := status, ownerResponse := message,
                 respondedAt := some now }
      let db2 := db.map (fun x => if x.id == bookingId then b2 else x)
      match notificationStep with
      | Except.error _ => (RespondOutcome.serverError "Server error", db2)
      | Except.ok _ => (RespondOutcome.responded b2, db2)

/-- C10: every owner accept/reject request that passes validation and
the ownership check answers 500 `Server error` — the notification step
references `Notification`, which owner.js never imports — yet the
booking's new status has already been saved and persists in the
collection: the state changes even though an error is returned. -/
theorem respondToBooking_saves_then_500
    (db : List OwnerBooking) (reqUserId bookingId now : Nat)
    (status message : String)
    (hstatus : status = "confirmed" ∨ status = "rejected")
    (b : OwnerBooking) (hb : db.find? (fun x => x.id == bookingId) = some b)
    (howner : b.propertyOwner = reqUserId) :
    (respondToBooking db reqUserId bookingId now status message).1 =
      RespondOutcome.serverError "Server error" ∧
    ({ b with status := status, ownerResponse := message,
              respondedAt := some now } : OwnerBooking) ∈
      (respondToBooking db reqUserId bookingId now status message).2 := by
  have hmem := List.mem_of_find?_eq_some hb
  have hpred := List.find?_some hb
  have hstep : notificationStep =
      Except.error "ReferenceError: Notification is not defined" := by
    simp [notificationStep, ownerModuleBindings]
  have key : respondToBooking db reqUserId bookingId now status message =
      (RespondOutcome.serverError "Server error",
       db.map (fun x => if x.id == bookingId then
         { b with status := status, ownerResponse := message,
                  respondedAt := some now } else x)) := by
    rcases hstatus with h | h <;>
      simp [respondToBooking, h, hb, howner, hstep]
  rw [key]
  exact ⟨rfl, List.mem_map.mpr ⟨b, hmem, by simp [hpred]⟩⟩

/-- Witness for C10: owner 9 confirms visit booking 7; the response is
the 500 server error and the stored booking now carries status
`confirmed` with the owner's message and response time. -/
theorem respondToBooking_saves_then_500_witness :
    (respondToBooking [⟨7, 3, 9, "visit", "pending", "", none⟩]
      9 7 1000 "confirmed" "ok").1 =
      RespondOutcome.serverError "Server error" ∧
    (⟨7, 3, 9, "visit", "confirmed", "ok", some 1000⟩ : OwnerBooking) ∈
      (respondToBooking [⟨7, 3, 9, "visit", "pending", "", none⟩]
        9 7 1000 "confirmed" "ok").2 :=
  respondToBooking_saves_then_500 _ 9 7 1000 "confirmed" "ok" (Or.inl rfl)
    ⟨7, 3, 9, "visit", "pending", "", none⟩ (by decide) rfl

end AccommodationFinder
